import Mathlib

/-!
Verification development for the PDF form converter's Geometry Inference
Engine (`scripts/field_sizing.py`) and Pipeline Coordinator
(`scripts/convert_pdf_form.py`).

Modelling conventions:
* Python floats are modelled as exact rationals (`ℚ`); float literals such as
  `0.9`, `0.1`, `0.015` become the rationals `9/10`, `1/10`, `15/1000`.
* A PIL grayscale image (`Image.convert('L')`) is a width, a height and a
  total pixel function `ℤ → ℤ → ℕ`; `PIL.Image.crop` pads with 0 outside the
  source image, which the `crop` definition reproduces.
* `PIL.ImageFilter.FIND_EDGES` is the 3×3 kernel (-1,…,8,…,-1) with clamping
  to [0,255]; Pillow's `ImagingFilter` copies the one-pixel border of the
  input unchanged, which `findEdges` reproduces.
* Python `int(x)` truncates toward zero (`pyInt`); `np.median` sorts and
  averages the two middle elements for even length (`npMedian`).
* Field dictionaries are modelled by the `Field` structure with all keys
  present (the JSON artifacts produced by the detection stage always carry
  them); Python object identity used by `has_overlap` (`other is current`)
  is modelled by the `id` component.
-/

/-- Python `int()` applied to a rational: truncation toward zero. -/
def pyInt (q : ℚ) : ℤ :=
  if q < 0 then -(⌊-q⌋) else ⌊q⌋

/-- A grayscale raster: width, height, and a total pixel accessor
(x = column, y = row). Reads outside `[0,w) × [0,h)` are only performed
through `crop`, which bound-checks. -/
structure GrayImage where
  w : ℕ
  h : ℕ
  px : ℤ → ℤ → ℕ

/-- Region extraction, `PIL.Image.crop((l, t, r, b))`: the result has size
`(r-l) × (b-t)` and reads outside the source image yield 0 (PIL zero-pads). -/
def crop (im : GrayImage) (l t r b : ℤ) : GrayImage :=
  { w := (r - l).toNat
    h := (b - t).toNat
    px := fun x y =>
      if 0 ≤ l + x ∧ l + x < (im.w : ℤ) ∧ 0 ≤ t + y ∧ t + y < (im.h : ℤ) then
        im.px (l + x) (t + y)
      else 0 }

/-- Clamp an integer convolution result into the byte range [0, 255]. -/
def clampByte (z : ℤ) : ℕ := (max 0 (min z 255)).toNat

/-- The FIND_EDGES 3×3 convolution at an interior pixel:
`8·center − (sum of the 8 neighbours)`, clamped to a byte. -/
def edgeConvAt (im : GrayImage) (x y : ℤ) : ℕ :=
  clampByte (8 * (im.px x y : ℤ) -
    ((im.px (x-1) (y-1) : ℤ) + im.px x (y-1) + im.px (x+1) (y-1) +
     im.px (x-1) y + im.px (x+1) y +
     im.px (x-1) (y+1) + im.px x (y+1) + im.px (x+1) (y+1)))

/-- `region.filter(ImageFilter.FIND_EDGES)`: Pillow applies the 3×3 kernel to
interior pixels and copies the one-pixel border from the input unchanged. -/
def findEdges (im : GrayImage) : GrayImage :=
  { w := im.w
    h := im.h
    px := fun x y =>
      if 0 < x ∧ x + 1 < (im.w : ℤ) ∧ 0 < y ∧ y + 1 < (im.h : ℤ) then
        edgeConvAt im x y
      else im.px x y }

/-- Insertion of a value into a sorted list of naturals (ascending). -/
def insertSorted (a : ℕ) : List ℕ → List ℕ
  | [] => [a]
  | b :: t => if a ≤ b then a :: b :: t else b :: insertSorted a t

/-- Insertion sort, ascending; models the sort inside `np.median`. -/
def sortNat : List ℕ → List ℕ
  | [] => []
  | a :: t => insertSorted a (sortNat t)

/-- `np.median` on a list of naturals: sort ascending; for odd length take
the middle element, for even length average the two middle elements.
(`np.median` of an empty array is NaN; every call site guards non-emptiness,
so the value returned for `[]` here is irrelevant.) -/
def npMedian (l : List ℕ) : ℚ :=
  let s := sortNat l
  let n := s.length
  if n = 0 then 0
  else if n % 2 = 1 then (s.getD (n / 2) 0 : ℚ)
  else ((s.getD (n / 2 - 1) 0 : ℚ) + (s.getD (n / 2) 0 : ℚ)) / 2

/-- Row indices of every pixel of `e` strictly above `thr`, in row-major
order: this is `np.where(edges_array > threshold)[0]` — one entry per
matching *pixel* (rows appear with multiplicity). -/
def rowIdxs (e : GrayImage) (thr : ℕ) : List ℕ :=
  (List.range e.h).flatMap (fun y =>
    ((List.range e.w).filter (fun x => decide (thr < e.px (x : ℤ) (y : ℤ)))).map
      (fun _ => y))

/-- Number of pixels strictly above `thr` in row `y` of `e`:
`len(np.where(line_row > threshold)[0])`. -/
def countRowAbove (e : GrayImage) (y : ℤ) (thr : ℕ) : ℕ :=
  ((List.range e.w).filter (fun x => decide (thr < e.px (x : ℤ) y))).length

/-- Result dictionary of `detect_underline_or_box`
(`{"width": …, "height": …, "type": "underline"}`). -/
structure UnderlineBox where
  width : ℕ
  height : ℕ
  kind : String
deriving DecidableEq

/-- `detect_underline_or_box(region, field_pos)` from `field_sizing.py`
(lines 224–269): FIND_EDGES, collect the row indices of all pixels above
threshold 100, take `int(np.median(...))` of them; in that row count the
pixels above threshold; if the count exceeds 10 return it as width with a
fixed height of 3, else `None`. `field_pos` is accepted but never read, as
in the source. The Python `try/except` body contains no raising operation
in this total model, so the `except: return None` arm has no analogue. -/
def detect_underline_or_box (region : GrayImage) (field_pos : ℤ × ℤ) :
    Option UnderlineBox :=
  let edges := findEdges region
  let horizontal_lines := rowIdxs edges 100
  if horizontal_lines.length > 0 then
    let line_y := pyInt (npMedian horizontal_lines)
    if line_y < (edges.h : ℤ) then
      let cnt := countRowAbove edges line_y 100
      if cnt > 10 then some ⟨cnt, 3, "underline"⟩ else none
    else none
  else none

/-- Python slice `a:b` over an axis of length `n`: negative endpoints are
taken from the end, then both are clamped into `[0, n]`; yields the index
list. -/
def pySliceList (n : ℕ) (a b : ℤ) : List ℤ :=
  let norm := fun (i : ℤ) => if i < 0 then max 0 ((n : ℤ) + i) else min i (n : ℤ)
  (List.range (norm b - norm a).toNat).map (fun k => norm a + (k : ℤ))

/-- Numpy single-index semantics on an axis of length `n`: a negative index
counts from the end. (Indices below `-n` would raise in numpy; no claim
exercises them.) -/
def npIx (n : ℕ) (i : ℤ) : ℤ := if i < 0 then i + (n : ℤ) else i

/-- `np.mean(vals) < thr` as evaluated by Python: the mean of an empty slice
is NaN and `NaN < thr` is `False`. -/
def meanLt (vals : List ℕ) (thr : ℚ) : Bool :=
  if vals.length = 0 then false
  else decide (((vals.sum : ℚ) / (vals.length : ℚ)) < thr)

/-- Values of `array[y0 : y0+cnt, x]` — a vertical slice of column `x`. -/
def colSliceVals (im : GrayImage) (y0 cnt x : ℤ) : List ℕ :=
  (pySliceList im.h y0 (y0 + cnt)).map (fun y => im.px (npIx im.w x) y)

/-- Values of `array[y, x0 : x0+cnt]` — a horizontal slice of row `y`. -/
def rowSliceVals (im : GrayImage) (y x0 cnt : ℤ) : List ℕ :=
  (pySliceList im.w x0 (x0 + cnt)).map (fun x => im.px x (npIx im.h y))

/-- Horizontal white-space scan loop of `analyze_white_space`: starting at
column `x`, advance while the mean of the 10-pixel-tall strip below
`field_y` stays at or above 240, counting columns; `fuel` is the length of
the Python `range`. -/
def scanWhiteH (im : GrayImage) (field_y : ℤ) : ℤ → ℕ → ℕ
  | _, 0 => 0
  | x, fuel + 1 =>
    if (im.w : ℤ) ≤ x ∨ (im.h : ℤ) ≤ field_y then 0
    else
      let slice_height := min 10 ((im.h : ℤ) - field_y)
      if meanLt (colSliceVals im field_y slice_height x) 240 then 0
      else 1 + scanWhiteH im field_y (x + 1) fuel

/-- Vertical white-space scan loop of `analyze_white_space` (10-pixel-wide
strip to the right of `field_x`). -/
def scanWhiteV (im : GrayImage) (field_x : ℤ) : ℤ → ℕ → ℕ
  | _, 0 => 0
  | y, fuel + 1 =>
    if (im.h : ℤ) ≤ y ∨ (im.w : ℤ) ≤ field_x then 0
    else
      let slice_width := min 10 ((im.w : ℤ) - field_x)
      if meanLt (rowSliceVals im y field_x slice_width) 240 then 0
      else 1 + scanWhiteV im field_x (y + 1) fuel

/-- Result of `analyze_white_space`. -/
structure WhiteSpace where
  horizontal_extent : ℕ
  vertical_extent : ℕ

/-- `analyze_white_space(region, field_pos)` from `field_sizing.py`
(lines 272–318): scan rightward from the field position (hard cap 500
columns) and downward (hard cap 100 rows) while the mean brightness of a
thin strip stays at or above the white threshold 240. -/
def analyze_white_space (region : GrayImage) (field_pos : ℤ × ℤ) : WhiteSpace :=
  let fx := field_pos.1
  let fy := field_pos.2
  { horizontal_extent := scanWhiteH region fy fx ((min (fx + 500) (region.w : ℤ)) - fx).toNat
    vertical_extent := scanWhiteV region fx fy ((min (fy + 100) (region.h : ℤ)) - fy).toNat }

/-- Run-length pass over one pixel column of `estimate_text_height`: record
each maximal run of dark pixels (value < 100) of length > 3 that is closed
by a light pixel; a run still open when the column ends is not recorded,
exactly as in the Python loop. -/
def darkRunsGo : List ℕ → ℕ → List ℕ
  | [], _ => []
  | p :: rest, run =>
    if p < 100 then darkRunsGo rest (run + 1)
    else if run > 3 then run :: darkRunsGo rest 0
    else darkRunsGo rest 0

/-- Pixel values of column `x`, top to bottom. -/
def columnVals (im : GrayImage) (x : ℕ) : List ℕ :=
  (List.range im.h).map (fun y => im.px (x : ℤ) (y : ℤ))

/-- Columns sampled by `estimate_text_height`: `range(0, w, 10)`. -/
def sampledColumns (w : ℕ) : List ℕ :=
  (List.range w).filter (fun x => x % 10 = 0)

/-- `estimate_text_height(region)` from `field_sizing.py` (lines 321–364):
sample every 10th column, collect closed dark runs longer than 3 pixels,
and return `int(np.median(runs))`, or the fixed default 12 if none. -/
def estimate_text_height (region : GrayImage) : ℤ :=
  let vertical_runs :=
    (sampledColumns region.w).flatMap (fun x => darkRunsGo (columnVals region x) 0)
  if vertical_runs.length > 0 then pyInt (npMedian vertical_runs) else 12

/-- Normalized bounding box `{left, top, width, height}`. -/
structure BBox where
  left : ℚ
  top : ℚ
  width : ℚ
  height : ℚ
deriving DecidableEq

/-- A detected form field, after the shape of the JSON artifact (the name
`Field` itself is taken by Mathlib's algebra class). `id` models Python
object identity (each dictionary in the fields list is a distinct object);
`sizing_method` is absent (`none`) until the Sizing stage sets it. -/
structure FormField where
  id : ℕ
  label : String
  field_type : String
  page : ℕ
  confidence : ℚ
  bounding_box : BBox
  sizing_method : Option String
deriving DecidableEq

/-- `boxes_overlap(bbox1, bbox2)` from `field_sizing.py` (lines 395–417):
closed-rectangle intersection test. -/
def boxes_overlap (bbox1 bbox2 : BBox) : Bool :=
  let right1 := bbox1.left + bbox1.width
  let bottom1 := bbox1.top + bbox1.height
  let right2 := bbox2.left + bbox2.width
  let bottom2 := bbox2.top + bbox2.height
  !(decide (right1 < bbox2.left) || decide (bbox1.left > right2) ||
    decide (bottom1 < bbox2.top) || decide (bbox1.top > bottom2))

/-- `has_overlap(bbox, all_fields, current_field)` from `field_sizing.py`
(lines 367–392): true when some field in the list other than the current
one (object identity) and on the same page overlaps `bbox`. All sibling
boxes are read from the list as given — the original, un-refined boxes. -/
def has_overlap (bbox : BBox) (all_fields : List FormField) (current_field : FormField) : Bool :=
  all_fields.any (fun o =>
    !(o.id == current_field.id) && (o.page == current_field.page) &&
      boxes_overlap bbox o.bounding_box)

/-- Pixel-space geometry of a candidate: the four `int(...)` conversions at
the top of `optimize_field_bbox` (lines 147–152). The model assumes the
`bounding_box` keys are present, so the `.get(..., default)` defaults of
the source never fire. -/
structure PxGeom where
  left_px : ℤ
  top_px : ℤ
  width_px : ℤ
  height_px : ℤ

/-- Pixel conversion step of `optimize_field_bbox`. -/
def pixelGeom (field : FormField) (page_image : GrayImage) : PxGeom :=
  { left_px := pyInt (field.bounding_box.left * page_image.w)
    top_px := pyInt (field.bounding_box.top * page_image.h)
    width_px := pyInt (field.bounding_box.width * page_image.w)
    height_px := pyInt (field.bounding_box.height * page_image.h) }

/-- Analysis window of `optimize_field_bbox` (lines 154–161): the crop
around the field with a 50-pixel margin clamped to the page. -/
def analysisRegion (field : FormField) (page_image : GrayImage) : GrayImage :=
  let g := pixelGeom field page_image
  let region_left := max 0 (g.left_px - 50)
  let region_top := max 0 (g.top_px - 50)
  let region_right := min (page_image.w : ℤ) (g.left_px + g.width_px + 50)
  let region_bottom := min (page_image.h : ℤ) (g.top_px + g.height_px + 50)
  crop page_image region_left region_top region_right region_bottom

/-- Field position within the analysis window,
`(left_px - region_left, top_px - region_top)`. -/
def regionFieldPos (field : FormField) (page_image : GrayImage) : ℤ × ℤ :=
  let g := pixelGeom field page_image
  (g.left_px - max 0 (g.left_px - 50), g.top_px - max 0 (g.top_px - 50))

/-- Steps 1–3 of `optimize_field_bbox` (lines 163–191): the pixel
`(width, height)` before the field-type shape policy. Underline evidence
wins; otherwise white-space extent (capped at half the page width) and
text-height estimation (with the 1.2 padding factor and the 1.5% / 4%
page-height clamps) are used. -/
def rawDims (field : FormField) (page_image : GrayImage) : ℤ × ℤ :=
  let g := pixelGeom field page_image
  let region := analysisRegion field page_image
  let pos := regionFieldPos field page_image
  match detect_underline_or_box region pos with
  | some ub =>
      ((ub.width : ℤ), max (ub.height : ℤ) (pyInt ((15/1000 : ℚ) * page_image.h)))
  | none =>
      let white_space := analyze_white_space region pos
      let w := min (white_space.horizontal_extent : ℤ) (pyInt ((1/2 : ℚ) * page_image.w))
      let text_height := estimate_text_height region
      let h := max (pyInt ((6/5 : ℚ) * (text_height : ℚ)))
                 (max (pyInt ((15/1000 : ℚ) * page_image.h))
                      (min g.height_px (pyInt ((4/100 : ℚ) * page_image.h))))
      (w, h)

/-- Step 4 of `optimize_field_bbox` (lines 193–205): field-type shape
policy — checkbox forced square, textarea height floor 10% of page height,
signature width floor 20% of page width and height floor 5% of page
height. -/
def typeAdjust (field_type : String) (page_image : GrayImage) (wh : ℤ × ℤ) : ℤ × ℤ :=
  if field_type = "checkbox" then
    let size := min wh.1 wh.2
    (size, size)
  else if field_type = "textarea" then
    (wh.1, max wh.2 (pyInt ((1/10 : ℚ) * page_image.h)))
  else if field_type = "signature" then
    (max wh.1 (pyInt ((2/10 : ℚ) * page_image.w)),
     max wh.2 (pyInt ((5/100 : ℚ) * page_image.h)))
  else wh

/-- The normalized bounding box built at lines 207–213 of
`optimize_field_bbox`, before the overlap-mitigation step: position is
carried over unchanged from the candidate, pixel dimensions are divided by
the page dimensions. -/
def preMitigationBBox (field : FormField) (page_image : GrayImage) : BBox :=
  let wh := typeAdjust field.field_type page_image (rawDims field page_image)
  { left := field.bounding_box.left
    top := field.bounding_box.top
    width := (wh.1 : ℚ) / (page_image.w : ℚ)
    height := (wh.2 : ℚ) / (page_image.h : ℚ) }

/-- The overlap-mitigation shrink (lines 217–219): both dimensions times
0.9, position unchanged. -/
def shrinkBox (b : BBox) : BBox :=
  { b with width := b.width * (9/10), height := b.height * (9/10) }

/-- `optimize_field_bbox(field, page_image, all_fields)` from
`field_sizing.py` (lines 123–221): build the refined box, then shrink both
dimensions by 0.9 exactly once if it overlaps any same-page sibling's
original box. -/
def optimize_field_bbox (field : FormField) (page_image : GrayImage)
    (all_fields : List FormField) : BBox :=
  let optimized_bbox := preMitigationBBox field page_image
  if has_overlap optimized_bbox all_fields field then shrinkBox optimized_bbox
  else optimized_bbox

/-- Placeholder raster used only as the (never reached) `List.getD` default
when indexing the page-image list at a valid index. -/
def emptyImage : GrayImage := { w := 0, h := 0, px := fun _ _ => 0 }

/-- Core loop of `calculate_intelligent_field_sizes` (lines 69–103): fields
are grouped by page number, pages are enumerated from 1 over the rendered
images, and each field on a rendered page is refined against its page image
and the original fields of that page, receiving a fresh copy with the new
bounding box and `sizing_method = "intelligent"`. A field whose page number
matches no rendered image is never visited and does not appear in the
output. -/
def calculate_intelligent_field_sizes (fields : List FormField)
    (images : List GrayImage) : List FormField :=
  (List.range images.length).flatMap (fun i =>
    let page_fields := fields.filter (fun f => f.page == i + 1)
    page_fields.map (fun f =>
      { f with bounding_box := optimize_field_bbox f (images.getD i emptyImage) page_fields,
               sizing_method := some "intelligent" }))

/-- The `"sizing_stats"` entry built at lines 109–113: `(avg_width,
avg_height)` of the optimized fields, 0 when there are none. -/
def sizing_stats (optimized_fields : List FormField) : ℚ × ℚ :=
  if optimized_fields.length = 0 then (0, 0)
  else
    ((optimized_fields.map (fun f => f.bounding_box.width)).sum / (optimized_fields.length : ℚ),
     (optimized_fields.map (fun f => f.bounding_box.height)).sum / (optimized_fields.length : ℚ))

/-- Arithmetic mean of a list of rationals (0 for the empty list, since
`x / 0 = 0` in `ℚ`); the specification-side notion the sizing-stats claim
compares against. -/
def arithMean (l : List ℚ) : ℚ := l.sum / (l.length : ℚ)

/-- Status recorded in a `StageResult` of the conversion pipeline. -/
inductive StageStatus where
  | success
  | failed
  | skipped
deriving DecidableEq

/-- Data-flow outcome of the Validation and Sizing stages of
`run_conversion_pipeline`: the two recorded statuses, the field-set
artifact handed to the Sizing stage (`current_fields_file` at step 3) and
the one handed to the Generation stage (`current_fields_file` at step 4). -/
structure PipelineFlow (α : Type) where
  validationStatus : StageStatus
  sizingStatus : StageStatus
  sizingInput : α
  generationInput : α

/-- Steps 2–3 of `run_conversion_pipeline` from `convert_pdf_form.py`
(lines 104–182), modelled as data flow over an abstract field-set artifact
type `α`. Each fallible stage is a function returning `Except`; `.error`
models the subprocess raising `CalledProcessError`. On validation failure
`current_fields_file` stays at the detection output; on sizing failure it
stays at the sizing input; neither failure aborts the run (the function
still produces a generation input). -/
def run_conversion_pipeline {α : Type} (detected : α)
    (validation : α → Except String α) (sizing : α → Except String α)
    (skip_validation skip_sizing : Bool) : PipelineFlow α :=
  let step2 : StageStatus × α :=
    if skip_validation then (.skipped, detected)
    else
      match validation detected with
      | .ok v => (.success, v)
      | .error _ => (.failed, detected)
  let step3 : StageStatus × α :=
    if skip_sizing then (.skipped, step2.2)
    else
      match sizing step2.2 with
      | .ok s => (.success, s)
      | .error _ => (.failed, step2.2)
  { validationStatus := step2.1
    sizingStatus := step3.1
    sizingInput := step2.2
    generationInput := step3.2 }

/-- Axis-aligned overlap area of two normalized boxes (specification-side
notion used by the overlap-reduction claim). -/
def overlapArea (b1 b2 : BBox) : ℚ :=
  max 0 (min (b1.left + b1.width) (b2.left + b2.width) - max b1.left b2.left) *
    max 0 (min (b1.top + b1.height) (b2.top + b2.height) - max b1.top b2.top)

/-- Distinct row indices of `e` that contain at least one pixel above
`thr` (specification-side reading of "rows whose edge intensity exceeds
the threshold"). -/
def distinctRowsAbove (e : GrayImage) (thr : ℕ) : List ℕ :=
  (List.range e.h).filter (fun y =>
    (List.range e.w).any (fun x => decide (thr < e.px (x : ℤ) (y : ℤ))))

/-- Longest-run scan: `cur` is the current run of `true`s, `best` the best
seen so far. -/
def longestRunAux : List Bool → ℕ → ℕ → ℕ
  | [], cur, best => max cur best
  | b :: t, cur, best =>
    if b then longestRunAux t (cur + 1) best
    else longestRunAux t 0 (max cur best)

/-- Length of the longest contiguous run of pixels above `thr` in row `y`
of `e` (specification-side notion). -/
def longestRunInRow (e : GrayImage) (y : ℤ) (thr : ℕ) : ℕ :=
  longestRunAux ((List.range e.w).map (fun x => decide (thr < e.px (x : ℤ) y))) 0 0

/-- Modelled from the spec: the underline detector as the specification
sentence describes it — the median row index among the *distinct* rows
containing above-threshold edge pixels, then the *longest contiguous run*
of edge pixels within that row, returned as width (height 3) iff the run
exceeds 10 px. Used only to contrast with `detect_underline_or_box`. -/
def detectUnderlineSpec (region : GrayImage) (field_pos : ℤ × ℤ) :
    Option UnderlineBox :=
  let edges := findEdges region
  let rows := distinctRowsAbove edges 100
  if rows.length > 0 then
    let line_y := pyInt (npMedian rows)
    let run := longestRunInRow edges line_y 100
    if run > 10 then some ⟨run, 3, "underline"⟩ else none
  else none

/-- The behaviour `detect_underline_or_box` actually implements, stated as
a standalone function (amended specification): the median is taken over
the row indices of *all* above-threshold pixels (with multiplicity), and
the returned width is the *count* of above-threshold pixels in that row
(returned iff the count exceeds 10, with fixed height 3). The in-bounds
guard of the source is provably always true and is therefore absent
here. -/
def detectUnderlineAmended (region : GrayImage) (field_pos : ℤ × ℤ) :
    Option UnderlineBox :=
  let edges := findEdges region
  let rows := rowIdxs edges 100
  if rows.length > 0 then
    let cnt := countRowAbove edges (pyInt (npMedian rows)) 100
    if cnt > 10 then some ⟨cnt, 3, "underline"⟩ else none
  else none

/-- An all-white page raster of the given dimensions. -/
def whitePage (w h : ℕ) : GrayImage :=
  { w := w, h := h
    px := fun x y =>
      if 0 ≤ x ∧ x < (w : ℤ) ∧ 0 ≤ y ∧ y < (h : ℤ) then 255 else 0 }

/-- A 26×40 white page with a black underline stroke on row 10, columns
5–22. -/
def exImgUnderline : GrayImage :=
  { w := 26, h := 40
    px := fun x y =>
      if y = 10 ∧ 5 ≤ x ∧ x ≤ 22 then 0
      else if 0 ≤ x ∧ x < 26 ∧ 0 ≤ y ∧ y < 40 then 255
      else 0 }

/-- A 10×10 white page with a single black pixel at (5, 5). -/
def exImgDot : GrayImage :=
  { w := 10, h := 10
    px := fun x y =>
      if x = 5 ∧ y = 5 then 0
      else if 0 ≤ x ∧ x < 10 ∧ 0 ≤ y ∧ y < 10 then 255
      else 0 }

/-- A 26×5 black region with twelve isolated bright pixels on row 2
(odd columns 1, 3, …, 23): each produces one above-threshold edge pixel,
so the edge image has twelve above-threshold pixels in row 2 whose longest
contiguous run has length 1. -/
def exImgDots : GrayImage :=
  { w := 26, h := 5
    px := fun x y =>
      if y = 2 ∧ x % 2 = 1 ∧ 1 ≤ x ∧ x ≤ 23 then 255 else 0 }

/-- Textarea candidate anchored at the page origin over the underline of
`exImgUnderline`. -/
def exTextarea : FormField :=
  { id := 0, label := "notes", field_type := "textarea", page := 1,
    confidence := 90, bounding_box := ⟨0, 0, 1/5, 1/50⟩, sizing_method := none }

/-- Text sibling overlapping `exTextarea`'s refined box. -/
def exSibling : FormField :=
  { id := 1, label := "name", field_type := "text", page := 1,
    confidence := 90, bounding_box := ⟨1/10, 0, 1/5, 1/50⟩, sizing_method := none }

/-- Checkbox candidate on a blank page. -/
def exCheckbox : FormField :=
  { id := 2, label := "agree", field_type := "checkbox", page := 1,
    confidence := 90, bounding_box := ⟨0, 0, 1/10, 1/10⟩, sizing_method := none }

/-- Text candidate anchored at (0.5, 0.5) of `exImgDot`, directly on the
black pixel, so the white-space scan stops immediately. -/
def exTextOnDot : FormField :=
  { id := 3, label := "city", field_type := "text", page := 1,
    confidence := 90, bounding_box := ⟨1/2, 1/2, 1/5, 1/50⟩, sizing_method := none }

/-- First of two overlapping text candidates on a blank page. -/
def exOverlapA : FormField :=
  { id := 0, label := "a", field_type := "text", page := 1,
    confidence := 90, bounding_box := ⟨0, 0, 1/10, 1/10⟩, sizing_method := none }

/-- Second of two overlapping text candidates on a blank page. -/
def exOverlapB : FormField :=
  { id := 1, label := "b", field_type := "text", page := 1,
    confidence := 90, bounding_box := ⟨1/20, 0, 1/10, 1/10⟩, sizing_method := none }

/-- Candidate on page 2 of a document whose rendering produced a single
page image. -/
def exPageTwoField : FormField :=
  { id := 4, label := "zip", field_type := "text", page := 2,
    confidence := 90, bounding_box := ⟨1/10, 1/10, 1/5, 1/50⟩, sizing_method := none }

/-- Signature candidate on a blank page. -/
def exSignature : FormField :=
  { id := 5, label := "sign", field_type := "signature", page := 1,
    confidence := 90, bounding_box := ⟨0, 0, 1/5, 1/50⟩, sizing_method := none }

theorem pyInt_nonneg {q : ℚ} (h : 0 ≤ q) : 0 ≤ pyInt q := by
  unfold pyInt
  rw [if_neg (not_lt.mpr h)]
  exact Int.floor_nonneg.mpr h

theorem pyInt_eq_floor {q : ℚ} (h : 0 ≤ q) : pyInt q = ⌊q⌋ := by
  unfold pyInt
  rw [if_neg (not_lt.mpr h)]

theorem npMedian_nonneg (l : List ℕ) : 0 ≤ npMedian l := by
  unfold npMedian
  dsimp only
  split_ifs <;> positivity

theorem estimate_text_height_nonneg (region : GrayImage) :
    0 ≤ estimate_text_height region := by
  unfold estimate_text_height
  dsimp only
  split_ifs
  · exact pyInt_nonneg (npMedian_nonneg _)
  · norm_num

theorem rawDims_nonneg (field : FormField) (page_image : GrayImage) :
    0 ≤ (rawDims field page_image).1 ∧ 0 ≤ (rawDims field page_image).2 := by
  unfold rawDims
  rcases hdet : detect_underline_or_box (analysisRegion field page_image)
      (regionFieldPos field page_image) with _ | ub <;>
    simp only [hdet]
  · refine ⟨le_min (Int.natCast_nonneg _) (pyInt_nonneg (by positivity)), ?_⟩
    refine le_max_of_le_left (pyInt_nonneg ?_)
    have h := estimate_text_height_nonneg (analysisRegion field page_image)
    have h6 : (0:ℚ) ≤ 6/5 := by norm_num
    exact mul_nonneg h6 (by exact_mod_cast h)
  · exact ⟨Int.natCast_nonneg _, le_max_of_le_left (Int.natCast_nonneg _)⟩

theorem typeAdjust_nonneg (ft : String) (img : GrayImage) (wh : ℤ × ℤ)
    (h1 : 0 ≤ wh.1) (h2 : 0 ≤ wh.2) :
    0 ≤ (typeAdjust ft img wh).1 ∧ 0 ≤ (typeAdjust ft img wh).2 := by
  unfold typeAdjust
  split_ifs <;>
    refine ⟨?_, ?_⟩ <;>
    first
      | exact le_min h1 h2
      | exact h1
      | exact h2
      | exact le_max_of_le_left h1
      | exact le_max_of_le_left h2

theorem preMitigationBBox_dims_nonneg (field : FormField) (page_image : GrayImage) :
    0 ≤ (preMitigationBBox field page_image).width ∧
      0 ≤ (preMitigationBBox field page_image).height := by
  obtain ⟨hr1, hr2⟩ := rawDims_nonneg field page_image
  obtain ⟨ht1, ht2⟩ := typeAdjust_nonneg field.field_type page_image _ hr1 hr2
  unfold preMitigationBBox
  constructor
  · exact div_nonneg (by exact_mod_cast ht1) (by positivity)
  · exact div_nonneg (by exact_mod_cast ht2) (by positivity)

theorem preMitigationBBox_pos (field : FormField) (page_image : GrayImage) :
    (preMitigationBBox field page_image).left = field.bounding_box.left ∧
      (preMitigationBBox field page_image).top = field.bounding_box.top := by
  unfold preMitigationBBox
  exact ⟨rfl, rfl⟩

theorem optimize_field_bbox_cases (field : FormField) (page_image : GrayImage)
    (all_fields : List FormField) :
    optimize_field_bbox field page_image all_fields =
      shrinkBox (preMitigationBBox field page_image) ∨
    optimize_field_bbox field page_image all_fields =
      preMitigationBBox field page_image := by
  unfold optimize_field_bbox
  dsimp only
  split_ifs <;> simp

theorem optimize_field_bbox_dims_lb (field : FormField) (page_image : GrayImage)
    (all_fields : List FormField) :
    (9/10 : ℚ) * (preMitigationBBox field page_image).width ≤
        (optimize_field_bbox field page_image all_fields).width ∧
      (9/10 : ℚ) * (preMitigationBBox field page_image).height ≤
        (optimize_field_bbox field page_image all_fields).height := by
  obtain ⟨hw, hh⟩ := preMitigationBBox_dims_nonneg field page_image
  rcases optimize_field_bbox_cases field page_image all_fields with h | h <;> rw [h]
  · unfold shrinkBox
    constructor <;> dsimp only <;> linarith
  · constructor <;> linarith

theorem optimize_field_bbox_pos_preserved (field : FormField) (page_image : GrayImage)
    (all_fields : List FormField) :
    (optimize_field_bbox field page_image all_fields).left = field.bounding_box.left ∧
      (optimize_field_bbox field page_image all_fields).top = field.bounding_box.top := by
  obtain ⟨h1, h2⟩ := preMitigationBBox_pos field page_image
  rcases optimize_field_bbox_cases field page_image all_fields with h | h <;> rw [h]
  · unfold shrinkBox
    exact ⟨h1, h2⟩
  · exact ⟨h1, h2⟩

theorem optimize_field_bbox_dims_nonneg (field : FormField) (page_image : GrayImage)
    (all_fields : List FormField) :
    0 ≤ (optimize_field_bbox field page_image all_fields).width ∧
      0 ≤ (optimize_field_bbox field page_image all_fields).height := by
  obtain ⟨hw, hh⟩ := preMitigationBBox_dims_nonneg field page_image
  rcases optimize_field_bbox_cases field page_image all_fields with h | h <;> rw [h]
  · unfold shrinkBox
    constructor <;> dsimp only <;> positivity
  · exact ⟨hw, hh⟩

theorem mem_insertSorted {x a : ℕ} : ∀ {l : List ℕ}, x ∈ insertSorted a l → x = a ∨ x ∈ l := by
  intro l
  induction l with
  | nil => simp [insertSorted]
  | cons b t ih =>
    unfold insertSorted
    split_ifs
    · intro hx
      rcases List.mem_cons.mp hx with h | h
      · exact Or.inl h
      · exact Or.inr h
    · intro hx
      rcases List.mem_cons.mp hx with h | h
      · exact Or.inr (List.mem_cons.mpr (Or.inl h))
      · rcases ih h with h2 | h2
        · exact Or.inl h2
        · exact Or.inr (List.mem_cons.mpr (Or.inr h2))

theorem mem_sortNat {x : ℕ} : ∀ {l : List ℕ}, x ∈ sortNat l → x ∈ l := by
  intro l
  induction l with
  | nil => simp [sortNat]
  | cons a t ih =>
    unfold sortNat
    intro hx
    rcases mem_insertSorted hx with h | h
    · exact List.mem_cons.mpr (Or.inl h)
    · exact List.mem_cons.mpr (Or.inr (ih h))

theorem getD_lt_of_forall {l : List ℕ} {n : ℕ} (h : ∀ x ∈ l, x < n) (hn : 0 < n) :
    ∀ i, l.getD i 0 < n := by
  induction l with
  | nil => intro i; simpa using hn
  | cons a t ih =>
    intro i
    cases i with
    | zero => exact h a (List.mem_cons.mpr (Or.inl rfl))
    | succ j =>
      exact ih (fun x hx => h x (List.mem_cons.mpr (Or.inr hx))) j

theorem npMedian_lt {l : List ℕ} {n : ℕ} (h : ∀ x ∈ l, x < n) (hn : 0 < n) :
    npMedian l < (n : ℚ) := by
  have hs : ∀ x ∈ sortNat l, x < n := fun x hx => h x (mem_sortNat hx)
  unfold npMedian
  dsimp only
  split_ifs
  · exact_mod_cast hn
  · exact_mod_cast getD_lt_of_forall hs hn _
  · have h1 := getD_lt_of_forall hs hn ((sortNat l).length / 2 - 1)
    have h2 := getD_lt_of_forall hs hn ((sortNat l).length / 2)
    have q1 : ((sortNat l).getD ((sortNat l).length / 2 - 1) 0 : ℚ) < n := by exact_mod_cast h1
    have q2 : ((sortNat l).getD ((sortNat l).length / 2) 0 : ℚ) < n := by exact_mod_cast h2
    linarith

theorem rowIdxs_lt (e : GrayImage) (thr : ℕ) : ∀ y ∈ rowIdxs e thr, y < e.h := by
  intro y hy
  unfold rowIdxs at hy
  obtain ⟨a, ha, hmem⟩ := List.mem_flatMap.mp hy
  obtain ⟨x, _, hxy⟩ := List.mem_map.mp hmem
  subst hxy
  exact List.mem_range.mp ha

theorem detect_underline_guard {region : GrayImage}
    (hne : (rowIdxs (findEdges region) 100).length > 0) :
    pyInt (npMedian (rowIdxs (findEdges region) 100)) < ((findEdges region).h : ℤ) := by
  obtain ⟨y, hy⟩ := List.exists_mem_of_length_pos hne
  have hall := rowIdxs_lt (findEdges region) 100
  have hpos : 0 < (findEdges region).h := lt_of_le_of_lt (Nat.zero_le y) (hall y hy)
  rw [pyInt_eq_floor (npMedian_nonneg _)]
  rw [Int.floor_lt]
  have := npMedian_lt hall hpos
  exact_mod_cast this

/-- C7 (amended): `detect_underline_or_box` coincides on every input with
`detectUnderlineAmended`: it takes `int(median(...))` of the row indices of
*all* above-threshold edge pixels (with multiplicity, not distinct rows),
counts the above-threshold pixels of that row (not the longest contiguous
run), and returns that count as width with fixed height 3 iff the count
exceeds 10, else none; the source's in-bounds guard on the median row
never fails. -/
theorem detect_underline_eq_amended (region : GrayImage) (field_pos : ℤ × ℤ) :
    detect_underline_or_box region field_pos = detectUnderlineAmended region field_pos := by
  unfold detect_underline_or_box detectUnderlineAmended
  dsimp only
  by_cases hl : (rowIdxs (findEdges region) 100).length > 0
  · rw [if_pos hl, if_pos hl, if_pos (detect_underline_guard hl)]
  · rw [if_neg hl, if_neg hl]

theorem typeAdjust_checkbox (img : GrayImage) (wh : ℤ × ℤ) :
    typeAdjust "checkbox" img wh = (min wh.1 wh.2, min wh.1 wh.2) := by
  unfold typeAdjust
  simp

theorem typeAdjust_textarea (img : GrayImage) (wh : ℤ × ℤ) :
    typeAdjust "textarea" img wh = (wh.1, max wh.2 (pyInt ((1/10 : ℚ) * img.h))) := by
  unfold typeAdjust
  rw [if_neg (by decide : ¬("textarea" = "checkbox")), if_pos rfl]

theorem typeAdjust_signature (img : GrayImage) (wh : ℤ × ℤ) :
    typeAdjust "signature" img wh =
      (max wh.1 (pyInt ((2/10 : ℚ) * img.w)), max wh.2 (pyInt ((5/100 : ℚ) * img.h))) := by
  unfold typeAdjust
  rw [if_neg (by decide : ¬("signature" = "checkbox")),
    if_neg (by decide : ¬("signature" = "textarea")), if_pos rfl]

theorem intCast_div_le_div {a b : ℤ} (n : ℕ) (h : a ≤ b) :
    (a : ℚ) / (n : ℚ) ≤ (b : ℚ) / (n : ℚ) := by
  rcases Nat.eq_zero_or_pos n with h0 | h0
  · subst h0; norm_num
  · have hn : (0 : ℚ) < n := by exact_mod_cast h0
    rw [div_le_div_iff_of_pos_right hn]
    exact_mod_cast h

theorem has_overlap_perm (b : BBox) {all all' : List FormField} (cur : FormField)
    (hp : all.Perm all') : has_overlap b all cur = has_overlap b all' cur := by
  unfold has_overlap
  rw [Bool.eq_iff_iff]
  simp only [List.any_eq_true]
  constructor <;> rintro ⟨x, hx, hpx⟩
  · exact ⟨x, hp.mem_iff.mp hx, hpx⟩
  · exact ⟨x, hp.mem_iff.mpr hx, hpx⟩

theorem shrink_axis_le (l1 w1 l2 w2 : ℚ) :
    min (l1 + w1 * (9/10)) (l2 + w2 * (9/10)) - max l1 l2 ≤
      (9/10) * (min (l1 + w1) (l2 + w2) - max l1 l2) := by
  rcases le_total (l1 + w1) (l2 + w2) with h | h
  · rw [min_eq_left h]
    have h1 : min (l1 + w1 * (9/10)) (l2 + w2 * (9/10)) ≤ l1 + w1 * (9/10) :=
      min_le_left _ _
    have h2 : l1 ≤ max l1 l2 := le_max_left _ _
    linarith
  · rw [min_eq_right h]
    have h1 : min (l1 + w1 * (9/10)) (l2 + w2 * (9/10)) ≤ l2 + w2 * (9/10) :=
      min_le_right _ _
    have h2 : l2 ≤ max l1 l2 := le_max_right _ _
    linarith

theorem max0_shrink_le {A' A : ℚ} (h : A' ≤ (9/10) * A) :
    max 0 A' ≤ (9/10) * max 0 A := by
  have h1 : max 0 A' ≤ max 0 ((9/10) * A) := max_le_max le_rfl h
  have h2 : (9/10 : ℚ) * max 0 A = max 0 ((9/10) * A) := by
    rw [mul_max_of_nonneg _ _ (by norm_num : (0:ℚ) ≤ 9/10), mul_zero]
  rw [h2]
  exact h1

theorem shrinkBox_overlapArea_le (b1 b2 : BBox) :
    overlapArea (shrinkBox b1) (shrinkBox b2) ≤ (81/100) * overlapArea b1 b2 := by
  unfold overlapArea shrinkBox
  dsimp only
  have hx := max0_shrink_le (shrink_axis_le b1.left b1.width b2.left b2.width)
  have hy := max0_shrink_le (shrink_axis_le b1.top b1.height b2.top b2.height)
  have hy0 : (0:ℚ) ≤ max 0 (min (b1.top + b1.height * (9/10)) (b2.top + b2.height * (9/10)) -
      max b1.top b2.top) := le_max_left _ _
  have hx0 : (0:ℚ) ≤ max 0 (min (b1.left + b1.width * (9/10)) (b2.left + b2.width * (9/10)) -
      max b1.left b2.left) := le_max_left _ _
  refine le_trans (mul_le_mul hx hy hy0 (le_trans hx0 hx)) (le_of_eq (by ring))

/-- C2: in `run_conversion_pipeline` (with neither stage skipped), a failing
Validation stage records status `failed` and Sizing still executes,
receiving exactly the pre-validation (Detection) field set; and a failing
Sizing stage records status `failed` and Generation receives exactly the
pre-sizing field set. The run is never aborted: the pipeline value is total. -/
theorem C2_degrade_and_continue (α : Type) (detected : α)
    (validation sizing : α → Except String α) :
    (∀ e, validation detected = Except.error e →
        (run_conversion_pipeline detected validation sizing false false).validationStatus =
          StageStatus.failed ∧
        (run_conversion_pipeline detected validation sizing false false).sizingInput = detected ∧
        (run_conversion_pipeline detected validation sizing false false).sizingStatus ≠
          StageStatus.skipped) ∧
    (∀ e, sizing (run_conversion_pipeline detected validation sizing false false).sizingInput =
          Except.error e →
        (run_conversion_pipeline detected validation sizing false false).sizingStatus =
          StageStatus.failed ∧
        (run_conversion_pipeline detected validation sizing false false).generationInput =
          (run_conversion_pipeline detected validation sizing false false).sizingInput) := by
  constructor
  · intro e he
    unfold run_conversion_pipeline
    rw [he]
    rcases hs : sizing detected with v | v <;> simp [hs, he]
  · intro e he
    unfold run_conversion_pipeline at he ⊢
    rcases hv : validation detected with v | v <;>
      (try rw [hv] at he) <;>
      (try simp only [Bool.false_eq_true, if_false] at he) <;>
      (try simp only [Bool.false_eq_true, if_false]) <;>
      rw [he] <;> simp

/-- C4: for a checkbox field the refined bounding box returned by
`optimize_field_bbox` — after all steps including the possible 0.9 overlap
shrink — has pixel-derived width equal to pixel-derived height: width
times page width equals height times page height, exactly in the rational
model. -/
theorem C4_checkbox_square (field : FormField) (page_image : GrayImage)
    (all_fields : List FormField) (hcb : field.field_type = "checkbox")
    (hw : 0 < page_image.w) (hh : 0 < page_image.h) :
    (optimize_field_bbox field page_image all_fields).width * (page_image.w : ℚ) =
      (optimize_field_bbox field page_image all_fields).height * (page_image.h : ℚ) := by
  have hW : ((page_image.w : ℚ)) ≠ 0 := by
    have : (0:ℚ) < page_image.w := by exact_mod_cast hw
    exact ne_of_gt this
  have hH : ((page_image.h : ℚ)) ≠ 0 := by
    have : (0:ℚ) < page_image.h := by exact_mod_cast hh
    exact ne_of_gt this
  have hwd : (preMitigationBBox field page_image).width =
      ((min (rawDims field page_image).1 (rawDims field page_image).2 : ℤ) : ℚ) /
        (page_image.w : ℚ) := by
    simp only [preMitigationBBox, hcb, typeAdjust_checkbox]
  have hht : (preMitigationBBox field page_image).height =
      ((min (rawDims field page_image).1 (rawDims field page_image).2 : ℤ) : ℚ) /
        (page_image.h : ℚ) := by
    simp only [preMitigationBBox, hcb, typeAdjust_checkbox]
  rcases optimize_field_bbox_cases field page_image all_fields with h | h <;> rw [h]
  · unfold shrinkBox
    dsimp only
    rw [hwd, hht]
    field_simp
    ring
  · rw [hwd, hht]
    field_simp

/-- C9: `optimize_field_bbox` is deterministic — it is a pure function of
the candidate field, the page raster and the sibling list, so two calls on
identical inputs yield identical refined boxes. -/
theorem C9_deterministic (f1 f2 : FormField) (img1 img2 : GrayImage)
    (s1 s2 : List FormField) (hf : f1 = f2) (hi : img1 = img2) (hs : s1 = s2) :
    optimize_field_bbox f1 img1 s1 = optimize_field_bbox f2 img2 s2 := by
  rw [hf, hi, hs]

/-- Witness for C9 at concrete inputs. -/
theorem C9_deterministic_witness :
    optimize_field_bbox exCheckbox (whitePage 10 10) [] =
      optimize_field_bbox exCheckbox (whitePage 10 10) [] :=
  C9_deterministic exCheckbox exCheckbox (whitePage 10 10) (whitePage 10 10) [] [] rfl rfl rfl

/-- C10: `calculate_intelligent_field_sizes` never mutates its input: every
output field is a fresh copy of an input field with only `bounding_box`
and `sizing_method` replaced, and the refined box is computed from the
*original* same-page sibling list taken from the input. Moreover
`optimize_field_bbox` depends on the sibling list only up to permutation,
so each field's refined box is independent of the order in which the
page's fields are processed. -/
theorem C10_no_mutation_order_independent :
    (∀ (field : FormField) (img : GrayImage) (all all' : List FormField),
        all.Perm all' →
        optimize_field_bbox field img all = optimize_field_bbox field img all') ∧
    (∀ (fields : List FormField) (images : List GrayImage) (g : FormField),
        g ∈ calculate_intelligent_field_sizes fields images →
        ∃ f ∈ fields, 1 ≤ f.page ∧ f.page ≤ images.length ∧
          g = { f with
                bounding_box := optimize_field_bbox f (images.getD (f.page - 1) emptyImage)
                    (fields.filter (fun x => x.page == f.page)),
                sizing_method := some "intelligent" }) := by
  constructor
  · intro field img all all' hp
    unfold optimize_field_bbox
    dsimp only
    rw [has_overlap_perm (preMitigationBBox field img) field hp]
  · intro fields images g hg
    unfold calculate_intelligent_field_sizes at hg
    obtain ⟨i, hi, hmem⟩ := List.mem_flatMap.mp hg
    rw [List.mem_range] at hi
    dsimp only at hmem
    obtain ⟨f, hf, rfl⟩ := List.mem_map.mp hmem
    obtain ⟨hfmem, hfp⟩ := List.mem_filter.mp hf
    have hpage : f.page = i + 1 := beq_iff_eq.mp hfp
    refine ⟨f, hfmem, by omega, by omega, ?_⟩
    rw [hpage]
    simp

set_option maxRecDepth 1000000 in
unseal Rat.add Rat.mul Rat.inv Rat.sub Rat.ofScientific in
/-- Witness for C10 at concrete inputs: swapping the sibling list does not
change the refined box, and the single output of a concrete run is a
fresh copy of the input field as demanded by the theorem. -/
theorem C10_no_mutation_order_independent_witness :
    (optimize_field_bbox exOverlapA (whitePage 10 10) [exOverlapA, exOverlapB] =
      optimize_field_bbox exOverlapA (whitePage 10 10) [exOverlapB, exOverlapA]) ∧
    (∃ f ∈ [exOverlapA], 1 ≤ f.page ∧ f.page ≤ [whitePage 10 10].length ∧
      ({ id := 0, label := "a", field_type := "text", page := 1, confidence := 90,
         bounding_box := ⟨0, 0, 1/2, 7/5⟩,
         sizing_method := some "intelligent" } : FormField) =
        { f with
          bounding_box := optimize_field_bbox f ([whitePage 10 10].getD (f.page - 1) emptyImage)
              ([exOverlapA].filter (fun x => x.page == f.page)),
          sizing_method := some "intelligent" }) :=
  ⟨C10_no_mutation_order_independent.1 exOverlapA (whitePage 10 10) _ _
      (List.Perm.swap exOverlapB exOverlapA []),
    C10_no_mutation_order_independent.2 [exOverlapA] [whitePage 10 10] _ (by decide)⟩

/-- C8 (amended): after the Sizing stage every output field carries
`sizing_method = "intelligent"` (never one of `underline`, `whitespace`,
`typeDefault`), and the sizing statistics are exactly the arithmetic means
of the refined widths and heights. -/
theorem C8_amended_method_and_stats (fields : List FormField) (images : List GrayImage) :
    ((calculate_intelligent_field_sizes fields images).all
        (fun g => g.sizing_method == some "intelligent")) = true ∧
    sizing_stats (calculate_intelligent_field_sizes fields images) =
      (arithMean ((calculate_intelligent_field_sizes fields images).map
          (fun f => f.bounding_box.width)),
       arithMean ((calculate_intelligent_field_sizes fields images).map
          (fun f => f.bounding_box.height))) := by
  constructor
  · rw [List.all_eq_true]
    intro g hg
    unfold calculate_intelligent_field_sizes at hg
    obtain ⟨i, hi, hmem⟩ := List.mem_flatMap.mp hg
    dsimp only at hmem
    obtain ⟨f, hf, rfl⟩ := List.mem_map.mp hmem
    simp
  · unfold sizing_stats arithMean
    by_cases h : (calculate_intelligent_field_sizes fields images).length = 0
    · rw [if_pos h]
      rw [List.length_eq_zero.mp h]
      simp
    · rw [if_neg h]
      rw [List.length_map, List.length_map]

/-- C1 (amended): the Sizing stage never removes a field *whose page has a
rendered page image* — every such input field yields exactly one output
entry (a copy with refined geometry). Fields whose page number has no
rendered image, however, are dropped, and there is no per-field
`typeDefault` fallback anywhere in `calculate_intelligent_field_sizes`
(see the counterexample). -/
theorem C1_amended_rendered_pages_kept (fields : List FormField)
    (images : List GrayImage) (f : FormField) (hf : f ∈ fields)
    (h1 : 1 ≤ f.page) (h2 : f.page ≤ images.length) :
    ∃ g ∈ calculate_intelligent_field_sizes fields images,
      g.id = f.id ∧ g.label = f.label ∧ g.field_type = f.field_type ∧
        g.page = f.page := by
  have hi : f.page - 1 < images.length := by omega
  refine ⟨{ f with
      bounding_box := optimize_field_bbox f (images.getD (f.page - 1) emptyImage)
        (fields.filter (fun x => x.page == (f.page - 1) + 1)),
      sizing_method := some "intelligent" }, ?_, rfl, rfl, rfl, rfl⟩
  unfold calculate_intelligent_field_sizes
  refine List.mem_flatMap.mpr ⟨f.page - 1, List.mem_range.mpr hi, ?_⟩
  dsimp only
  refine List.mem_map.mpr ⟨f, List.mem_filter.mpr ⟨hf, ?_⟩, rfl⟩
  exact beq_iff_eq.mpr (by omega)

/-- Witness for C1 (amended) at concrete inputs. -/
theorem C1_amended_rendered_pages_kept_witness :
    ∃ g ∈ calculate_intelligent_field_sizes [exCheckbox] [whitePage 10 10],
      g.id = exCheckbox.id ∧ g.label = exCheckbox.label ∧
        g.field_type = exCheckbox.field_type ∧ g.page = exCheckbox.page :=
  C1_amended_rendered_pages_kept [exCheckbox] [whitePage 10 10] exCheckbox
    (List.mem_singleton.mpr rfl) (by decide) (by decide)

/-- C3 (amended): the type floors hold only up to the `int` truncation of
the source and the subsequent 0.9 overlap shrink. For every textarea field
the final refined height is at least `0.9 · ⌊0.1·pageH⌋ / pageH`, and for
every signature field the final width is at least
`0.9 · ⌊0.2·pageW⌋ / pageW` and the final height at least
`0.9 · ⌊0.05·pageH⌋ / pageH`; the unshrunk bounds `0.10`, `0.20`, `0.05`
of the original claim do not survive overlap mitigation (see the
counterexample). -/
theorem C3_amended_type_floors (field : FormField) (page_image : GrayImage)
    (all_fields : List FormField) :
    (field.field_type = "textarea" →
      (9/10 : ℚ) * ((pyInt ((1/10 : ℚ) * page_image.h) : ℚ) / (page_image.h : ℚ)) ≤
        (optimize_field_bbox field page_image all_fields).height) ∧
    (field.field_type = "signature" →
      (9/10 : ℚ) * ((pyInt ((2/10 : ℚ) * page_image.w) : ℚ) / (page_image.w : ℚ)) ≤
        (optimize_field_bbox field page_image all_fields).width ∧
      (9/10 : ℚ) * ((pyInt ((5/100 : ℚ) * page_image.h) : ℚ) / (page_image.h : ℚ)) ≤
        (optimize_field_bbox field page_image all_fields).height) := by
  obtain ⟨hlbw, hlbh⟩ := optimize_field_bbox_dims_lb field page_image all_fields
  constructor
  · intro hta
    have hh : (preMitigationBBox field page_image).height =
        ((max (rawDims field page_image).2 (pyInt ((1/10 : ℚ) * page_image.h)) : ℤ) : ℚ) /
          (page_image.h : ℚ) := by
      simp only [preMitigationBBox, hta, typeAdjust_textarea]
    have hmono : ((pyInt ((1/10 : ℚ) * page_image.h) : ℚ)) / (page_image.h : ℚ) ≤
        (preMitigationBBox field page_image).height := by
      rw [hh]
      exact intCast_div_le_div page_image.h (le_max_right _ _)
    calc (9/10 : ℚ) * ((pyInt ((1/10 : ℚ) * page_image.h) : ℚ) / (page_image.h : ℚ))
        ≤ (9/10 : ℚ) * (preMitigationBBox field page_image).height :=
          mul_le_mul_of_nonneg_left hmono (by norm_num)
      _ ≤ (optimize_field_bbox field page_image all_fields).height := hlbh
  · intro hsig
    have hwd : (preMitigationBBox field page_image).width =
        ((max (rawDims field page_image).1 (pyInt ((2/10 : ℚ) * page_image.w)) : ℤ) : ℚ) /
          (page_image.w : ℚ) := by
      simp only [preMitigationBBox, hsig, typeAdjust_signature]
    have hht : (preMitigationBBox field page_image).height =
        ((max (rawDims field page_image).2 (pyInt ((5/100 : ℚ) * page_image.h)) : ℤ) : ℚ) /
          (page_image.h : ℚ) := by
      simp only [preMitigationBBox, hsig, typeAdjust_signature]
    constructor
    · have hmono : ((pyInt ((2/10 : ℚ) * page_image.w) : ℚ)) / (page_image.w : ℚ) ≤
          (preMitigationBBox field page_image).width := by
        rw [hwd]
        exact intCast_div_le_div page_image.w (le_max_right _ _)
      calc (9/10 : ℚ) * ((pyInt ((2/10 : ℚ) * page_image.w) : ℚ) / (page_image.w : ℚ))
          ≤ (9/10 : ℚ) * (preMitigationBBox field page_image).width :=
            mul_le_mul_of_nonneg_left hmono (by norm_num)
        _ ≤ (optimize_field_bbox field page_image all_fields).width := hlbw
    · have hmono : ((pyInt ((5/100 : ℚ) * page_image.h) : ℚ)) / (page_image.h : ℚ) ≤
          (preMitigationBBox field page_image).height := by
        rw [hht]
        exact intCast_div_le_div page_image.h (le_max_right _ _)
      calc (9/10 : ℚ) * ((pyInt ((5/100 : ℚ) * page_image.h) : ℚ) / (page_image.h : ℚ))
          ≤ (9/10 : ℚ) * (preMitigationBBox field page_image).height :=
            mul_le_mul_of_nonneg_left hmono (by norm_num)
        _ ≤ (optimize_field_bbox field page_image all_fields).height := hlbh

/-- C5 (amended): overlap mitigation shrinks width and height by the fixed
factor 0.9 exactly once — the refined box is shrunk iff it intersects some
same-page sibling's *original* box — and the shrink operation itself
reduces the overlap area of any two boxes it is applied to by at least the
factor 0.81. The original claim's bound `A1 ≤ 0.81·A0` against the
*candidates'* overlap `A0` fails, because refinement may enlarge the boxes
before mitigation (see the counterexample). -/
theorem C5_amended_shrink_once_and_area (field : FormField) (page_image : GrayImage)
    (all_fields : List FormField) :
    (optimize_field_bbox field page_image all_fields =
      if has_overlap (preMitigationBBox field page_image) all_fields field then
        shrinkBox (preMitigationBBox field page_image)
      else preMitigationBBox field page_image) ∧
    (∀ b1 b2 : BBox,
      overlapArea (shrinkBox b1) (shrinkBox b2) ≤ (81/100) * overlapArea b1 b2) :=
  ⟨rfl, shrinkBox_overlapArea_le⟩

/-- C6 (amended): `optimize_field_bbox` returns `left` and `top` unchanged
(hence inside [0,1] whenever the candidate's are), and its width and
height are always nonnegative. Strict positivity of the width and
containment `left+width ≤ 1+ε`, `top+height ≤ 1+ε` do *not* hold (see the
counterexample). -/
theorem C6_amended_position_and_nonneg (field : FormField) (page_image : GrayImage)
    (all_fields : List FormField)
    (hl0 : 0 ≤ field.bounding_box.left) (hl1 : field.bounding_box.left ≤ 1)
    (ht0 : 0 ≤ field.bounding_box.top) (ht1 : field.bounding_box.top ≤ 1) :
    (optimize_field_bbox field page_image all_fields).left = field.bounding_box.left ∧
    (optimize_field_bbox field page_image all_fields).top = field.bounding_box.top ∧
    0 ≤ (optimize_field_bbox field page_image all_fields).left ∧
    (optimize_field_bbox field page_image all_fields).left ≤ 1 ∧
    0 ≤ (optimize_field_bbox field page_image all_fields).top ∧
    (optimize_field_bbox field page_image all_fields).top ≤ 1 ∧
    0 ≤ (optimize_field_bbox field page_image all_fields).width ∧
    0 ≤ (optimize_field_bbox field page_image all_fields).height := by
  obtain ⟨hL, hT⟩ := optimize_field_bbox_pos_preserved field page_image all_fields
  obtain ⟨hW, hH⟩ := optimize_field_bbox_dims_nonneg field page_image all_fields
  refine ⟨hL, hT, ?_, ?_, ?_, ?_, hW, hH⟩
  · rw [hL]; exact hl0
  · rw [hL]; exact hl1
  · rw [hT]; exact ht0
  · rw [hT]; exact ht1

/-- C1 counterexample: a field on page 2 of a document whose rendering
produced only one page image is silently removed by the Sizing stage — the
output field set is empty, with no `typeDefault` fallback entry, refuting
"running calculate_intelligent_field_sizes never removes a field from the
set". -/
theorem C1_counterexample :
    calculate_intelligent_field_sizes [exPageTwoField] [whitePage 10 10] = [] ∧
      exPageTwoField ∈ [exPageTwoField] := by
  refine ⟨by decide, List.mem_singleton.mpr rfl⟩

set_option maxRecDepth 1000000 in
unseal Rat.add Rat.mul Rat.inv Rat.sub Rat.ofScientific in
/-- C3 counterexample: on `exImgUnderline`, the textarea candidate
`exTextarea` gets the underline evidence path, its height is floored to
exactly `⌊0.1·40⌋/40 = 0.1`, and the subsequent overlap shrink against
`exSibling` leaves final height `0.09 < 0.10`, refuting the claimed
post-refinement bound `height ≥ 0.10`. -/
theorem C3_counterexample :
    ((calculate_intelligent_field_sizes [exTextarea, exSibling] [exImgUnderline]).head?.map
        (fun f => (f.field_type, f.bounding_box.height)) = some ("textarea", 9/100)) ∧
      ¬((1/10 : ℚ) ≤ 9/100) := by
  refine ⟨by decide, by norm_num⟩

set_option maxRecDepth 1000000 in
unseal Rat.add Rat.mul Rat.inv Rat.sub Rat.ofScientific in
/-- C5 counterexample: the two overlapping candidates `exOverlapA` and
`exOverlapB` (original overlap area `A0 = 1/200`) are both enlarged by the
white-space analysis before mitigation, and although both are shrunk by
0.9, their post-refinement overlap area `A1 = 63/125` exceeds
`0.81 · A0 = 81/20000`, refuting the claimed bound `A1 ≤ 0.81 · A0`. -/
theorem C5_counterexample :
    ((calculate_intelligent_field_sizes [exOverlapA, exOverlapB] [whitePage 10 10]).map
        (fun f => f.bounding_box) = [⟨0, 0, 9/20, 63/50⟩, ⟨1/20, 0, 9/20, 63/50⟩]) ∧
      ¬(overlapArea ⟨0, 0, 9/20, 63/50⟩ ⟨1/20, 0, 9/20, 63/50⟩ ≤
          (81/100) * overlapArea exOverlapA.bounding_box exOverlapB.bounding_box) := by
  refine ⟨by decide, by decide⟩

set_option maxRecDepth 1000000 in
unseal Rat.add Rat.mul Rat.inv Rat.sub Rat.ofScientific in
/-- C6 counterexample: the candidate `exTextOnDot` lies inside [0,1] with
positive width and height, yet its refined box has width exactly 0 (the
white-space scan stops immediately on the dark pixel) and height 1.4
(spilling far below the page), refuting both `width > 0` and
`top + height ≤ 1 + ε`. -/
theorem C6_counterexample :
    exTextOnDot.bounding_box = ⟨1/2, 1/2, 1/5, 1/50⟩ ∧
      optimize_field_bbox exTextOnDot exImgDot [exTextOnDot] = ⟨1/2, 1/2, 0, 7/5⟩ ∧
      ¬(0 < (optimize_field_bbox exTextOnDot exImgDot [exTextOnDot]).width) := by
  refine ⟨by decide, by decide, by decide⟩

set_option maxRecDepth 1000000 in
unseal Rat.add Rat.mul Rat.inv Rat.sub Rat.ofScientific in
/-- C7 counterexample: on `exImgDots` the edge image has twelve isolated
above-threshold pixels in row 2, whose longest contiguous run has length 1
(≤ 10), so by the claim the detector must return none; the code instead
returns the pixel *count* 12 as a width. The specification-side detector
`detectUnderlineSpec` indeed returns none on the same input. -/
theorem C7_counterexample :
    detect_underline_or_box exImgDots (0, 0) = some ⟨12, 3, "underline"⟩ ∧
      longestRunInRow (findEdges exImgDots) 2 100 = 1 ∧
      detectUnderlineSpec exImgDots (0, 0) = none := by
  refine ⟨by decide, by decide, by decide⟩

set_option maxRecDepth 1000000 in
unseal Rat.add Rat.mul Rat.inv Rat.sub Rat.ofScientific in
/-- C8 counterexample: a concrete Sizing run stamps the field with
`sizing_method = "intelligent"`, which is not one of the claimed values
`underline`, `whitespace`, `typeDefault`. -/
theorem C8_counterexample :
    ((calculate_intelligent_field_sizes [exCheckbox] [whitePage 10 10]).map
        (fun f => f.sizing_method) = [some "intelligent"]) ∧
      ¬("intelligent" ∈ ["underline", "whitespace", "typeDefault"]) := by
  refine ⟨by decide, by decide⟩

/-- Witness for C2 at concrete inputs: both stage functions fail, the two
statuses read `failed`, and both stage inputs are the detection output. -/
theorem C2_degrade_and_continue_witness :
    (run_conversion_pipeline [1, 2, 3] (fun _ : List ℕ => Except.error "boom")
        (fun _ => Except.error "crash") false false).validationStatus = StageStatus.failed ∧
    (run_conversion_pipeline [1, 2, 3] (fun _ : List ℕ => Except.error "boom")
        (fun _ => Except.error "crash") false false).sizingInput = [1, 2, 3] ∧
    (run_conversion_pipeline [1, 2, 3] (fun _ : List ℕ => Except.error "boom")
        (fun _ => Except.error "crash") false false).sizingStatus = StageStatus.failed ∧
    (run_conversion_pipeline [1, 2, 3] (fun _ : List ℕ => Except.error "boom")
        (fun _ => Except.error "crash") false false).generationInput = [1, 2, 3] := by
  have h := C2_degrade_and_continue (List ℕ) [1, 2, 3]
    (fun _ => Except.error "boom") (fun _ => Except.error "crash")
  obtain ⟨h1, h2, _⟩ := h.1 "boom" rfl
  obtain ⟨h4, h5⟩ := h.2 "crash" rfl
  exact ⟨h1, h2, h4, by rw [h5, h2]⟩

/-- Witness for C3 (amended) at concrete inputs. -/
theorem C3_amended_type_floors_witness :
    ((9/10 : ℚ) * ((pyInt ((1/10 : ℚ) * (whitePage 10 10).h) : ℚ) / ((whitePage 10 10).h : ℚ)) ≤
      (optimize_field_bbox exTextarea (whitePage 10 10) []).height) ∧
    ((9/10 : ℚ) * ((pyInt ((2/10 : ℚ) * (whitePage 10 10).w) : ℚ) / ((whitePage 10 10).w : ℚ)) ≤
      (optimize_field_bbox exSignature (whitePage 10 10) []).width) :=
  ⟨(C3_amended_type_floors exTextarea (whitePage 10 10) []).1 rfl,
    ((C3_amended_type_floors exSignature (whitePage 10 10) []).2 rfl).1⟩

/-- Witness for C4 at concrete inputs. -/
theorem C4_checkbox_square_witness :
    (optimize_field_bbox exCheckbox (whitePage 10 10) []).width * ((whitePage 10 10).w : ℚ) =
      (optimize_field_bbox exCheckbox (whitePage 10 10) []).height * ((whitePage 10 10).h : ℚ) :=
  C4_checkbox_square exCheckbox (whitePage 10 10) [] rfl (by decide) (by decide)

/-- Witness for C6 (amended) at concrete inputs. -/
theorem C6_amended_position_and_nonneg_witness :
    (optimize_field_bbox exTextOnDot exImgDot [exTextOnDot]).left =
        exTextOnDot.bounding_box.left ∧
    (optimize_field_bbox exTextOnDot exImgDot [exTextOnDot]).top =
        exTextOnDot.bounding_box.top ∧
    0 ≤ (optimize_field_bbox exTextOnDot exImgDot [exTextOnDot]).left ∧
    (optimize_field_bbox exTextOnDot exImgDot [exTextOnDot]).left ≤ 1 ∧
    0 ≤ (optimize_field_bbox exTextOnDot exImgDot [exTextOnDot]).top ∧
    (optimize_field_bbox exTextOnDot exImgDot [exTextOnDot]).top ≤ 1 ∧
    0 ≤ (optimize_field_bbox exTextOnDot exImgDot [exTextOnDot]).width ∧
    0 ≤ (optimize_field_bbox exTextOnDot exImgDot [exTextOnDot]).height :=
  C6_amended_position_and_nonneg exTextOnDot exImgDot [exTextOnDot]
    (by norm_num [exTextOnDot]) (by norm_num [exTextOnDot])
    (by norm_num [exTextOnDot]) (by norm_num [exTextOnDot])
